import Mathlib

/-!
Shallow embedding of the M-Pesa backend (src/server.js): the STK-push
initiation handler, the in-memory transactions map, the webhook callback
handler and the phone/payload normalisation helpers, together with
theorems about their behaviour.
-/

namespace MpesaBackend

/-- JavaScript strings are modelled as lists of characters. -/
abbrev Str := List Char

/-- The JavaScript primitive values appearing in request and webhook
payloads: numbers (modelled as integers) and strings. -/
inductive JVal where
  | num : Int → JVal
  | str : Str → JVal
  deriving DecidableEq, Repr

/-- JavaScript truthiness of a possibly-absent string field: absent
(undefined) and the empty string are falsy. -/
def strTruthy : Option Str → Bool
  | none => false
  | some s => !s.isEmpty

/-- JavaScript truthiness of a possibly-absent value: absent, the number
0 and the empty string are falsy. -/
def jsTruthy : Option JVal → Bool
  | none => false
  | some (.num n) => n != 0
  | some (.str s) => !s.isEmpty

/-- JavaScript String.prototype.trim: strip whitespace from both ends. -/
def jsTrim (s : Str) : Str :=
  ((s.dropWhile Char.isWhitespace).reverse.dropWhile Char.isWhitespace).reverse

/-- Phone formatting from the stk-push handler (server.js lines 100-107):
after trim, a leading 0 is replaced by 254; a leading +254 loses only the
+; a value already starting with 254 passes through; anything else is
prefixed with 254. -/
def formatPhone (phone : Str) : Str :=
  let s := jsTrim phone
  if List.isPrefixOf ['0'] s then ['2', '5', '4'] ++ s.drop 1
  else if List.isPrefixOf ['+', '2', '5', '4'] s then s.drop 1
  else if List.isPrefixOf ['2', '5', '4'] s then s
  else ['2', '5', '4'] ++ s

/-- JavaScript parseInt as applied to the amount: a number parses to
itself (amounts in this model are integers); a string parses as optional
sign followed by decimal digits after leading whitespace; none models
NaN. -/
def jsParseInt : JVal → Option Int
  | .num n => some n
  | .str s =>
    let s1 := s.dropWhile Char.isWhitespace
    let signRest : Bool × Str :=
      match s1 with
      | '-' :: rest => (true, rest)
      | '+' :: rest => (false, rest)
      | _ => (false, s1)
    let ds := signRest.1 |> fun neg =>
      (neg, signRest.2.takeWhile Char.isDigit)
    if ds.2.isEmpty then none
    else
      let mag : Nat := ds.2.foldl (fun a c => a * 10 + (c.toNat - 48)) 0
      some (if ds.1 then -(mag : Int) else (mag : Int))

/-- Lifecycle status of a stored transaction. -/
inductive Status where
  | pending
  | completed
  | failed
  deriving DecidableEq, Repr

/-- One record of the in-memory transactions map (server.js lines
139-146 and 179-196). Timestamps are abstract ticks standing for the
value of new Date() at the moment in question; the optional fields stay
absent until the corresponding webhook assignment runs. -/
structure Transaction where
  phone : Str
  amount : Option Int
  accountRef : Str
  status : Status
  createdAt : Nat
  customerMessage : Option Str
  completedAt : Option Nat := none
  actualAmount : Option JVal := none
  receiptNumber : Option JVal := none
  transactionDate : Option JVal := none
  payerPhone : Option JVal := none
  errorMessage : Option Str := none
  deriving DecidableEq, Repr

/-- Keys of the transactions map: the CheckoutRequestID string when
present, none standing for the undefined key Map.set uses when the field
is missing from the gateway response. -/
abbrev Key := Option Str

/-- The in-memory transactions Map, as an insertion-ordered association
list. -/
abbrev Store := List (Key × Transaction)

/-- Map.prototype.get. -/
def mapGet : Store → Key → Option Transaction
  | [], _ => none
  | (k, t) :: rest, key => if k = key then some t else mapGet rest key

/-- Map.prototype.set: replace in place when the key exists, append
otherwise. -/
def mapSet : Store → Key → Transaction → Store
  | [], key, t => [(key, t)]
  | (k, t0) :: rest, key, t =>
    if k = key then (key, t) :: rest else (k, t0) :: mapSet rest key t

/-- Outcome of the access-token call (getAccessToken, lines 52-73): fail
models a thrown axios error (transport error, timeout or non-2xx
status); ok carries the 200 response's access_token field, none when the
field is absent from the response body. -/
inductive TokenOutcome where
  | fail : Str → TokenOutcome
  | ok : Option Str → TokenOutcome
  deriving DecidableEq, Repr

/-- Outcome of the STK-push call (lines 126-136): fail models a thrown
axios error; ok carries the 200 response's CheckoutRequestID and
CustomerMessage fields, each possibly absent. -/
inductive PushOutcome where
  | fail : Str → PushOutcome
  | ok : Option Str → Option Str → PushOutcome
  deriving DecidableEq, Repr

/-- The behaviour of the external gateway during one initiate run. -/
structure Gateway where
  tokenOutcome : TokenOutcome
  pushOutcome : PushOutcome
  deriving DecidableEq, Repr

/-- The stk-push request body: phone and accountRef are strings when
present; amount may be any value. -/
structure InitReq where
  phone : Option Str
  amount : Option JVal
  accountRef : Option Str
  deriving DecidableEq, Repr

/-- The request-dependent fields of stkPushPayload (lines 112-124):
Amount is parseInt(amount); PartyA and PhoneNumber the formatted phone;
AccountReference the first 12 characters of the reference. -/
structure StkPayload where
  amount : Option Int
  partyA : Str
  phoneNumber : Str
  accountReference : Str
  deriving DecidableEq, Repr

/-- Builds the request-dependent part of stkPushPayload. -/
def mkStkPayload (amount : JVal) (formattedPhone accountRef : Str) : StkPayload :=
  { amount := jsParseInt amount,
    partyA := formattedPhone,
    phoneNumber := formattedPhone,
    accountReference := accountRef.take 12 }

/-- Outbound gateway calls performed during one initiate run, in
order. -/
inductive GatewayCall where
  | token : GatewayCall
  | push : StkPayload → GatewayCall
  deriving DecidableEq, Repr

/-- Responses of the stk-push endpoint: 400 on validation failure, 500
from the catch block (carrying the upstream detail), 200 with
checkoutRequestId and customerMessage on success. -/
inductive InitResult where
  | validationError : Str → InitResult
  | serverError : Str → InitResult
  | ok : Option Str → Option Str → InitResult
  deriving DecidableEq, Repr

/-- The 400 message of the stk-push handler. -/
def requiredMsg : Str := "Phone, amount, and account reference are required".toList

/-- The stk-push handler (lines 87-163): validate truthiness of the
three fields, format the phone, call the gateway for a token and then
for the push, and on success store a pending record keyed by the
returned CheckoutRequestID. Returns the response, the new store, and the
list of gateway calls made. -/
def initiate (g : Gateway) (now : Nat) (store : Store) (req : InitReq) :
    InitResult × Store × List GatewayCall :=
  if !strTruthy req.phone || !jsTruthy req.amount || !strTruthy req.accountRef then
    (.validationError requiredMsg, store, [])
  else
    let phone := req.phone.getD []
    let amount := req.amount.getD (.num 0)
    let accountRef := req.accountRef.getD []
    let formattedPhone := formatPhone phone
    match g.tokenOutcome with
    | .fail e => (.serverError e, store, [.token])
    | .ok _ =>
      let payload := mkStkPayload amount formattedPhone accountRef
      match g.pushOutcome with
      | .fail e => (.serverError e, store, [.token, .push payload])
      | .ok id msg =>
        let tx : Transaction :=
          { phone := formattedPhone,
            amount := jsParseInt amount,
            accountRef := accountRef,
            status := .pending,
            createdAt := now,
            customerMessage := msg }
        (.ok id msg, mapSet store id tx, [.token, .push payload])

/-- One CallbackMetadata item: a Name and a Value. -/
structure MetaItem where
  name : Str
  value : JVal
  deriving DecidableEq, Repr

/-- The Body.stkCallback object; every field may be absent. In
callbackMetadata, the outer option is presence of CallbackMetadata and
the inner option is presence of its Item array. -/
structure StkCallback where
  checkoutRequestID : Option Str
  resultCode : Option JVal
  resultDesc : Option Str
  callbackMetadata : Option (Option (List MetaItem))
  deriving DecidableEq, Repr

/-- The Body object of the webhook; stkCallback may be absent. -/
structure BodyField where
  stkCallback : Option StkCallback
  deriving DecidableEq, Repr

/-- The webhook request body; Body may be absent. -/
structure CallbackEnvelope where
  bodyField : Option BodyField
  deriving DecidableEq, Repr

/-- The acknowledgment returned to the gateway by the callback
endpoint. -/
structure Ack where
  resultCode : Int
  resultDesc : Str
  deriving DecidableEq, Repr

/-- The fixed positive acknowledgment (lines 200-203). -/
def successAck : Ack := { resultCode := 0, resultDesc := "Success".toList }

/-- The metadata name Amount. -/
def amountName : Str := "Amount".toList

/-- The metadata name MpesaReceiptNumber. -/
def receiptName : Str := "MpesaReceiptNumber".toList

/-- The metadata name TransactionDate. -/
def txDateName : Str := "TransactionDate".toList

/-- The metadata name PhoneNumber. -/
def phoneName : Str := "PhoneNumber".toList

/-- One iteration of the metadata forEach (lines 184-189): four
independent name checks, each copying the item's Value into the matching
field. -/
def applyItem (t : Transaction) (it : MetaItem) : Transaction :=
  let t1 := if it.name = amountName then { t with actualAmount := some it.value } else t
  let t2 := if it.name = receiptName then { t1 with receiptNumber := some it.value } else t1
  let t3 := if it.name = txDateName then { t2 with transactionDate := some it.value } else t2
  if it.name = phoneName then { t3 with payerPhone := some it.value } else t3

/-- The callback handler (lines 166-212): when the nested shape is
present and the key matches a stored record, mutate that record as the
result code directs; always acknowledge with successAck. -/
def reconcile (now : Nat) (store : Store) (cb : CallbackEnvelope) : Ack × Store :=
  let store2 :=
    match cb.bodyField with
    | none => store
    | some bf =>
      match bf.stkCallback with
      | none => store
      | some sc =>
        match mapGet store sc.checkoutRequestID with
        | none => store
        | some t =>
          let t2 :=
            if sc.resultCode = some (JVal.num 0) then
              let tc : Transaction := { t with status := .completed, completedAt := some now }
              match sc.callbackMetadata with
              | some (some items) => items.foldl applyItem tc
              | _ => tc
            else
              { t with status := .failed, errorMessage := sc.resultDesc }
          mapSet store sc.checkoutRequestID t2
  (successAck, store2)

/-- The value of the last metadata item bearing the given name, if any:
the value the forEach leaves in the corresponding field. -/
def lastNamed (n : Str) : List MetaItem → Option JVal
  | [] => none
  | it :: rest =>
    match lastNamed n rest with
    | some v => some v
    | none => if it.name = n then some it.value else none

/-! Concrete sample data used in witnesses and counterexamples. -/

/-- A gateway-issued correlation key. -/
def keyA : Str := "ws_CO_0001".toList

/-- A pending transaction as a successful initiate would store it. -/
def samplePending : Transaction :=
  { phone := "254712345678".toList,
    amount := some 100,
    accountRef := "ACC-1".toList,
    status := .pending,
    createdAt := 1,
    customerMessage := some "Request accepted".toList }

/-- The metadata items of a typical success webhook. -/
def sampleItems : List MetaItem :=
  [ { name := "Amount".toList, value := .num 100 },
    { name := "MpesaReceiptNumber".toList, value := .str "NLJ7RT61SV".toList },
    { name := "TransactionDate".toList, value := .num 20191219102115 },
    { name := "PhoneNumber".toList, value := .num 254712345678 } ]

/-- The stkCallback object of a success webhook for keyA. -/
def sampleSc : StkCallback :=
  { checkoutRequestID := some keyA,
    resultCode := some (.num 0),
    resultDesc := some "Processed successfully".toList,
    callbackMetadata := some (some sampleItems) }

/-- The Body object wrapping sampleSc. -/
def sampleBf : BodyField := { stkCallback := some sampleSc }

/-- A complete success webhook for keyA. -/
def sampleSuccessCb : CallbackEnvelope := { bodyField := some sampleBf }

/-- The stkCallback object of a cancellation webhook for keyA. -/
def cancelSc : StkCallback :=
  { checkoutRequestID := some keyA,
    resultCode := some (.num 1032),
    resultDesc := some "Request cancelled by user".toList,
    callbackMetadata := none }

/-- The Body object wrapping cancelSc. -/
def cancelBf : BodyField := { stkCallback := some cancelSc }

/-- A complete cancellation webhook for keyA. -/
def sampleCancelCb : CallbackEnvelope := { bodyField := some cancelBf }

/-- The stkCallback object of a webhook whose ResultCode is the string
"0" rather than the number 0. -/
def strZeroSc : StkCallback :=
  { checkoutRequestID := some keyA,
    resultCode := some (.str ['0']),
    resultDesc := some "Processed successfully".toList,
    callbackMetadata := none }

/-- The Body object wrapping strZeroSc. -/
def strZeroBf : BodyField := { stkCallback := some strZeroSc }

/-- A complete webhook whose ResultCode is the string "0". -/
def strZeroCb : CallbackEnvelope := { bodyField := some strZeroBf }

/-- A gateway that succeeds on both calls, issuing keyA. -/
def gOk : Gateway :=
  { tokenOutcome := .ok (some "tok".toList),
    pushOutcome := .ok (some keyA) (some "ok".toList) }

/-- A well-formed request with a negative amount. -/
def reqNeg : InitReq :=
  { phone := some "0712345678".toList,
    amount := some (.num (-5)),
    accountRef := some "ACC".toList }

/-- A request with the amount field missing. -/
def reqMissing : InitReq :=
  { phone := some "0712345678".toList,
    amount := none,
    accountRef := some "ACC".toList }

/-- A well-formed request whose fields differ from samplePending. -/
def reqC : InitReq :=
  { phone := some "0722000111".toList,
    amount := some (.num 999),
    accountRef := some "OTHER".toList }

/-- A 20-character account reference. -/
def longRef : Str := "CUSTOMER-REF-2024-01".toList

/-- A well-formed request carrying longRef. -/
def reqD : InitReq :=
  { phone := some "0712345678".toList,
    amount := some (.num 75),
    accountRef := some longRef }

/-- A gateway whose 200 token response lacks the access_token field but
whose push call succeeds. -/
def gNoTokenField : Gateway :=
  { tokenOutcome := .ok none,
    pushOutcome := .ok (some keyA) (some "ok".toList) }

/-- A gateway whose token call times out. -/
def gTokenFail : Gateway :=
  { tokenOutcome := .fail "timeout of 10000ms exceeded".toList,
    pushOutcome := .ok (some keyA) (some "ok".toList) }

/-!  Helper lemmas about the map and the metadata fold. -/

theorem mapGet_mapSet_self (m : Store) (k : Key) (v : Transaction) :
    mapGet (mapSet m k v) k = some v := by
  induction m with
  | nil => simp [mapSet, mapGet]
  | cons p rest ih =>
    obtain ⟨k0, t0⟩ := p
    by_cases hk : k0 = k <;> simp [mapSet, mapGet, hk, ih]

theorem applyItem_status (t : Transaction) (it : MetaItem) :
    (applyItem t it).status = t.status := by
  simp only [applyItem]
  split_ifs <;> rfl

theorem applyItem_completedAt (t : Transaction) (it : MetaItem) :
    (applyItem t it).completedAt = t.completedAt := by
  simp only [applyItem]
  split_ifs <;> rfl

theorem applyItem_actualAmount (t : Transaction) (it : MetaItem) :
    (applyItem t it).actualAmount =
      if it.name = amountName then some it.value else t.actualAmount := by
  simp only [applyItem]
  split_ifs <;> rfl

theorem applyItem_receiptNumber (t : Transaction) (it : MetaItem) :
    (applyItem t it).receiptNumber =
      if it.name = receiptName then some it.value else t.receiptNumber := by
  simp only [applyItem]
  split_ifs <;> rfl

theorem applyItem_transactionDate (t : Transaction) (it : MetaItem) :
    (applyItem t it).transactionDate =
      if it.name = txDateName then some it.value else t.transactionDate := by
  simp only [applyItem]
  split_ifs <;> rfl

theorem applyItem_payerPhone (t : Transaction) (it : MetaItem) :
    (applyItem t it).payerPhone =
      if it.name = phoneName then some it.value else t.payerPhone := by
  simp only [applyItem]
  split_ifs <;> rfl

theorem foldl_applyItem_status (items : List MetaItem) :
    ∀ t : Transaction, (items.foldl applyItem t).status = t.status := by
  induction items with
  | nil => intro t; rfl
  | cons it rest ih => intro t; simp [List.foldl_cons, ih, applyItem_status]

theorem foldl_applyItem_completedAt (items : List MetaItem) :
    ∀ t : Transaction, (items.foldl applyItem t).completedAt = t.completedAt := by
  induction items with
  | nil => intro t; rfl
  | cons it rest ih => intro t; simp [List.foldl_cons, ih, applyItem_completedAt]

theorem foldl_applyItem_actualAmount (items : List MetaItem) :
    ∀ t : Transaction, (items.foldl applyItem t).actualAmount =
      (lastNamed amountName items).or t.actualAmount := by
  induction items with
  | nil => intro t; rfl
  | cons it rest ih =>
    intro t
    cases hl : lastNamed amountName rest <;>
      by_cases hn : it.name = amountName <;>
        simp [List.foldl_cons, ih, applyItem_actualAmount, lastNamed, hl, hn, Option.or]

theorem foldl_applyItem_receiptNumber (items : List MetaItem) :
    ∀ t : Transaction, (items.foldl applyItem t).receiptNumber =
      (lastNamed receiptName items).or t.receiptNumber := by
  induction items with
  | nil => intro t; rfl
  | cons it rest ih =>
    intro t
    cases hl : lastNamed receiptName rest <;>
      by_cases hn : it.name = receiptName <;>
        simp [List.foldl_cons, ih, applyItem_receiptNumber, lastNamed, hl, hn, Option.or]

theorem foldl_applyItem_transactionDate (items : List MetaItem) :
    ∀ t : Transaction, (items.foldl applyItem t).transactionDate =
      (lastNamed txDateName items).or t.transactionDate := by
  induction items with
  | nil => intro t; rfl
  | cons it rest ih =>
    intro t
    cases hl : lastNamed txDateName rest <;>
      by_cases hn : it.name = txDateName <;>
        simp [List.foldl_cons, ih, applyItem_transactionDate, lastNamed, hl, hn, Option.or]

theorem foldl_applyItem_payerPhone (items : List MetaItem) :
    ∀ t : Transaction, (items.foldl applyItem t).payerPhone =
      (lastNamed phoneName items).or t.payerPhone := by
  induction items with
  | nil => intro t; rfl
  | cons it rest ih =>
    intro t
    cases hl : lastNamed phoneName rest <;>
      by_cases hn : it.name = phoneName <;>
        simp [List.foldl_cons, ih, applyItem_payerPhone, lastNamed, hl, hn, Option.or]

theorem reconcile_success_store (now : Nat) (store : Store) (cb : CallbackEnvelope)
    (bf : BodyField) (sc : StkCallback) (t : Transaction) (items : List MetaItem)
    (h1 : cb.bodyField = some bf) (h2 : bf.stkCallback = some sc)
    (h3 : mapGet store sc.checkoutRequestID = some t)
    (h4 : sc.resultCode = some (JVal.num 0))
    (h5 : sc.callbackMetadata = some (some items)) :
    reconcile now store cb =
      (successAck, mapSet store sc.checkoutRequestID
        (items.foldl applyItem { t with status := .completed, completedAt := some now })) := by
  simp [reconcile, h1, h2, h3, h4, h5]

theorem reconcile_failed_store (now : Nat) (store : Store) (cb : CallbackEnvelope)
    (bf : BodyField) (sc : StkCallback) (t : Transaction)
    (h1 : cb.bodyField = some bf) (h2 : bf.stkCallback = some sc)
    (h3 : mapGet store sc.checkoutRequestID = some t)
    (h4 : ¬ sc.resultCode = some (JVal.num 0)) :
    reconcile now store cb =
      (successAck, mapSet store sc.checkoutRequestID
        { t with status := .failed, errorMessage := sc.resultDesc }) := by
  simp [reconcile, h1, h2, h3, h4]

/-! Claim theorems. -/

/-- Claim C5 counterexample: a whitespace-padded phone value starts with
neither 0 nor + nor 254, so under the claim's residual rule it would
simply be prefixed with 254; the handler instead trims it first and then
applies the leading-0 rule. -/
theorem formatPhone_pad_counterexample :
    List.isPrefixOf ['0'] " 0712345678".toList = false ∧
    List.isPrefixOf ['+'] " 0712345678".toList = false ∧
    List.isPrefixOf ['2', '5', '4'] " 0712345678".toList = false ∧
    formatPhone " 0712345678".toList ≠ ['2', '5', '4'] ++ " 0712345678".toList ∧
    formatPhone " 0712345678".toList = "254712345678".toList := by
  decide

/-- Claim C5 (amended): on a trimmed value (the handler trims first) the
rules are exactly as stated: a leading 0 is replaced with 254; a leading
+254 loses only the +; a value already starting with 254 is unchanged;
any other value is prefixed with 254 — and the four specified examples
evaluate accordingly. -/
theorem formatPhone_rules (s : Str) (h : jsTrim s = s) :
    (List.isPrefixOf ['0'] s = true → formatPhone s = ['2', '5', '4'] ++ s.drop 1) ∧
    (List.isPrefixOf ['+', '2', '5', '4'] s = true → formatPhone s = s.drop 1) ∧
    (List.isPrefixOf ['2', '5', '4'] s = true → formatPhone s = s) ∧
    (List.isPrefixOf ['0'] s = false → List.isPrefixOf ['+', '2', '5', '4'] s = false →
      List.isPrefixOf ['2', '5', '4'] s = false → formatPhone s = ['2', '5', '4'] ++ s) ∧
    formatPhone "0712345678".toList = "254712345678".toList ∧
    formatPhone "+254712345678".toList = "254712345678".toList ∧
    formatPhone "254712345678".toList = "254712345678".toList ∧
    formatPhone "712345678".toList = "254712345678".toList := by
  refine ⟨?_, ?_, ?_, ?_, by decide, by decide, by decide, by decide⟩
  · intro h0
    simp [formatPhone, h, h0]
  · intro hp
    cases s with
    | nil => exact absurd hp (by decide)
    | cons c cs =>
      rw [List.isPrefixOf_cons₂, Bool.and_eq_true, beq_iff_eq] at hp
      obtain ⟨hc, hrest⟩ := hp
      subst hc
      simp [formatPhone, h, List.isPrefixOf_cons₂, hrest]
  · intro hp
    cases s with
    | nil => exact absurd hp (by decide)
    | cons c cs =>
      rw [List.isPrefixOf_cons₂, Bool.and_eq_true, beq_iff_eq] at hp
      obtain ⟨hc, hrest⟩ := hp
      subst hc
      simp [formatPhone, h, List.isPrefixOf_cons₂, hrest]
  · intro h0 h1 h2
    simp [formatPhone, h, h0, h1, h2]

/-- Witness for formatPhone_rules at the input 0712345678. -/
theorem formatPhone_rules_witness :
    formatPhone "0712345678".toList = ['2', '5', '4'] ++ "0712345678".toList.drop 1 :=
  (formatPhone_rules "0712345678".toList (by decide)).1 (by decide)

/-- Claim C1: replaying the same success webhook against the already
completed record re-stamps completedAt with the later time, so the
stored record is not left unchanged by the second reconcile. -/
theorem reconcile_replay_restamps :
    (mapGet (reconcile 5 [(some keyA, samplePending)] sampleSuccessCb).2 (some keyA)).map
        Transaction.completedAt = some (some 5) ∧
    (mapGet (reconcile 9 (reconcile 5 [(some keyA, samplePending)] sampleSuccessCb).2
        sampleSuccessCb).2 (some keyA)).map Transaction.completedAt = some (some 9) ∧
    (reconcile 9 (reconcile 5 [(some keyA, samplePending)] sampleSuccessCb).2
        sampleSuccessCb).2 ≠
      (reconcile 5 [(some keyA, samplePending)] sampleSuccessCb).2 := by
  decide

/-- Claim C8: when the nested shape is absent, or the shape is present
but no stored transaction matches the correlation key, reconcile returns
the fixed positive acknowledgment and leaves the store unchanged. -/
theorem reconcile_noop_ack (now : Nat) (store : Store) (cb : CallbackEnvelope)
    (h : cb.bodyField = none ∨
      (∃ bf, cb.bodyField = some bf ∧ bf.stkCallback = none) ∨
      (∃ bf sc, cb.bodyField = some bf ∧ bf.stkCallback = some sc ∧
        mapGet store sc.checkoutRequestID = none)) :
    reconcile now store cb = (successAck, store) := by
  rcases h with h | ⟨bf, h1, h2⟩ | ⟨bf, sc, h1, h2, h3⟩ <;> simp [reconcile, *]

/-- Witness for reconcile_noop_ack: a webhook with no Body against an
empty store. -/
theorem reconcile_noop_ack_witness :
    reconcile 0 [] { bodyField := none } = (successAck, []) :=
  reconcile_noop_ack 0 [] { bodyField := none } (Or.inl rfl)

/-- Claim C6: a success webhook (numeric result code 0) for a stored key
transitions the record to completed, stamps completedAt with the current
time, and copies the Amount, MpesaReceiptNumber, TransactionDate and
PhoneNumber metadata values, when present, into actualAmount,
receiptNumber, transactionDate and payerPhone (the forEach leaves the
last item of a given name in place). -/
theorem reconcile_success_applies (now : Nat) (store : Store) (cb : CallbackEnvelope)
    (bf : BodyField) (sc : StkCallback) (t : Transaction) (items : List MetaItem)
    (h1 : cb.bodyField = some bf) (h2 : bf.stkCallback = some sc)
    (h3 : mapGet store sc.checkoutRequestID = some t)
    (h4 : sc.resultCode = some (JVal.num 0))
    (h5 : sc.callbackMetadata = some (some items)) :
    ∃ t2, mapGet (reconcile now store cb).2 sc.checkoutRequestID = some t2 ∧
      t2.status = .completed ∧
      t2.completedAt = some now ∧
      (∀ v, lastNamed amountName items = some v → t2.actualAmount = some v) ∧
      (∀ v, lastNamed receiptName items = some v → t2.receiptNumber = some v) ∧
      (∀ v, lastNamed txDateName items = some v → t2.transactionDate = some v) ∧
      (∀ v, lastNamed phoneName items = some v → t2.payerPhone = some v) := by
  rw [reconcile_success_store now store cb bf sc t items h1 h2 h3 h4 h5]
  refine ⟨_, mapGet_mapSet_self _ _ _, ?_, ?_, ?_, ?_, ?_, ?_⟩
  · rw [foldl_applyItem_status]
  · rw [foldl_applyItem_completedAt]
  · intro v hv
    rw [foldl_applyItem_actualAmount, hv]
    rfl
  · intro v hv
    rw [foldl_applyItem_receiptNumber, hv]
    rfl
  · intro v hv
    rw [foldl_applyItem_transactionDate, hv]
    rfl
  · intro v hv
    rw [foldl_applyItem_payerPhone, hv]
    rfl

/-- Witness for reconcile_success_applies on the sample success
webhook. -/
theorem reconcile_success_applies_witness :
    ∃ t2, mapGet (reconcile 5 [(some keyA, samplePending)] sampleSuccessCb).2
        sampleSc.checkoutRequestID = some t2 ∧
      t2.status = .completed ∧
      t2.completedAt = some 5 ∧
      (∀ v, lastNamed amountName sampleItems = some v → t2.actualAmount = some v) ∧
      (∀ v, lastNamed receiptName sampleItems = some v → t2.receiptNumber = some v) ∧
      (∀ v, lastNamed txDateName sampleItems = some v → t2.transactionDate = some v) ∧
      (∀ v, lastNamed phoneName sampleItems = some v → t2.payerPhone = some v) :=
  reconcile_success_applies 5 [(some keyA, samplePending)] sampleSuccessCb sampleBf sampleSc
    samplePending sampleItems rfl rfl (by decide) rfl rfl

/-- Claim C7: a webhook carrying a non-zero numeric result code for a
stored key transitions the record to failed and sets errorMessage to the
supplied ResultDesc. -/
theorem reconcile_nonzero_fails (now : Nat) (store : Store) (cb : CallbackEnvelope)
    (bf : BodyField) (sc : StkCallback) (t : Transaction) (n : Int) (d : Str)
    (h1 : cb.bodyField = some bf) (h2 : bf.stkCallback = some sc)
    (h3 : mapGet store sc.checkoutRequestID = some t)
    (h4 : sc.resultCode = some (JVal.num n)) (h5 : n ≠ 0)
    (h6 : sc.resultDesc = some d) :
    mapGet (reconcile now store cb).2 sc.checkoutRequestID =
      some { t with status := .failed, errorMessage := some d } := by
  have h4' : ¬ sc.resultCode = some (JVal.num 0) := by
    rw [h4]
    simp [h5]
  rw [reconcile_failed_store now store cb bf sc t h1 h2 h3 h4', h6]
  exact mapGet_mapSet_self _ _ _

/-- Witness for reconcile_nonzero_fails on the sample cancellation
webhook. -/
theorem reconcile_nonzero_fails_witness :
    mapGet (reconcile 7 [(some keyA, samplePending)] sampleCancelCb).2
        cancelSc.checkoutRequestID =
      some { samplePending with
             status := .failed,
             errorMessage := some "Request cancelled by user".toList } :=
  reconcile_nonzero_fails 7 [(some keyA, samplePending)] sampleCancelCb cancelBf cancelSc
    samplePending 1032 "Request cancelled by user".toList rfl rfl (by decide) rfl
    (by decide) rfl

/-- Claim C10: the result-code comparison is strict equality against the
number 0, so any ResultCode value other than the number 0 — the string
"0" included — sends a matching pending transaction to failed, with
errorMessage taken from ResultDesc, never to completed. -/
theorem reconcile_strict_zero (now : Nat) (store : Store) (cb : CallbackEnvelope)
    (bf : BodyField) (sc : StkCallback) (t : Transaction) (v : JVal)
    (h1 : cb.bodyField = some bf) (h2 : bf.stkCallback = some sc)
    (h3 : mapGet store sc.checkoutRequestID = some t) (ht : t.status = .pending)
    (h4 : sc.resultCode = some v) (h5 : v ≠ JVal.num 0) :
    mapGet (reconcile now store cb).2 sc.checkoutRequestID =
      some { t with status := .failed, errorMessage := sc.resultDesc } := by
  have h4' : ¬ sc.resultCode = some (JVal.num 0) := by
    rw [h4]
    simp [h5]
  rw [reconcile_failed_store now store cb bf sc t h1 h2 h3 h4']
  exact mapGet_mapSet_self _ _ _

/-- Witness for reconcile_strict_zero on a webhook whose ResultCode is
the string "0". -/
theorem reconcile_strict_zero_witness :
    mapGet (reconcile 3 [(some keyA, samplePending)] strZeroCb).2
        strZeroSc.checkoutRequestID =
      some { samplePending with
             status := .failed,
             errorMessage := strZeroSc.resultDesc } :=
  reconcile_strict_zero 3 [(some keyA, samplePending)] strZeroCb strZeroBf strZeroSc
    samplePending (.str ['0']) rfl rfl (by decide) rfl rfl (by decide)

/-- Claim C2 counterexample: a present negative amount is truthy, so the
handler's validation lets it through: the gateway is called and a
transaction is created instead of failing with a validation error. -/
theorem initiate_negative_amount_passes :
    (initiate gOk 2 [] reqNeg).1 ≠ InitResult.validationError requiredMsg ∧
    (initiate gOk 2 [] reqNeg).2.1 ≠ [] ∧
    (initiate gOk 2 [] reqNeg).2.2 ≠ [] := by
  decide

/-- Claim C2 (amended): initiate fails with the validation error, makes
no gateway call and leaves the store unchanged exactly when one of
phone, amount or accountRef is missing or falsy (absent field, empty
string, or amount 0); a present non-zero amount — negative included —
passes this check. -/
theorem initiate_validation (g : Gateway) (now : Nat) (store : Store) (req : InitReq)
    (h : strTruthy req.phone = false ∨ jsTruthy req.amount = false ∨
      strTruthy req.accountRef = false) :
    initiate g now store req = (.validationError requiredMsg, store, []) := by
  rcases h with h | h | h <;> simp [initiate, h]

/-- Witness for initiate_validation: the amount field is missing. -/
theorem initiate_validation_witness :
    initiate gOk 0 [] reqMissing = (.validationError requiredMsg, [], []) :=
  initiate_validation gOk 0 [] reqMissing (Or.inr (Or.inl (by decide)))

/-- Claim C3 counterexample: when the gateway hands back a correlation
key that is already in the store, Map.set overwrites the existing record
with the new pending one and the call still reports success — there is
no duplicate-key failure and the old record is not preserved. -/
theorem create_overwrites_counterexample :
    mapGet (initiate gOk 7 [(some keyA, samplePending)] reqC).2.1 (some keyA) ≠
      some samplePending ∧
    (initiate gOk 7 [(some keyA, samplePending)] reqC).1 =
      .ok (some keyA) (some "ok".toList) := by
  decide

/-- Claim C3 (amended): a successful initiate whose gateway returns an
already-present correlation key overwrites that key's record with the
freshly built pending record; no failure is reported. -/
theorem initiate_overwrites (g : Gateway) (now : Nat) (store : Store) (req : InitReq)
    (p r : Str) (a : JVal) (kid : Key) (msg : Option Str) (t0 : Transaction)
    (hp : req.phone = some p) (ha : req.amount = some a) (hr : req.accountRef = some r)
    (h1 : strTruthy req.phone = true) (h2 : jsTruthy req.amount = true)
    (h3 : strTruthy req.accountRef = true)
    (htok : ∃ tok, g.tokenOutcome = .ok tok)
    (hpush : g.pushOutcome = .ok kid msg)
    (hdup : mapGet store kid = some t0) :
    (initiate g now store req).1 = .ok kid msg ∧
    mapGet (initiate g now store req).2.1 kid =
      some { phone := formatPhone p, amount := jsParseInt a, accountRef := r,
             status := .pending, createdAt := now, customerMessage := msg } := by
  obtain ⟨tok, htok⟩ := htok
  rw [hp] at h1
  rw [ha] at h2
  rw [hr] at h3
  refine ⟨?_, ?_⟩ <;>
    simp [initiate, h1, h2, h3, hp, ha, hr, htok, hpush, mapGet_mapSet_self]

/-- Witness for initiate_overwrites: keyA is already stored and the
gateway issues keyA again. -/
theorem initiate_overwrites_witness :
    (initiate gOk 7 [(some keyA, samplePending)] reqC).1 =
      .ok (some keyA) (some "ok".toList) ∧
    mapGet (initiate gOk 7 [(some keyA, samplePending)] reqC).2.1 (some keyA) =
      some { phone := formatPhone "0722000111".toList,
             amount := jsParseInt (.num 999),
             accountRef := "OTHER".toList,
             status := .pending, createdAt := 7,
             customerMessage := some "ok".toList } :=
  initiate_overwrites gOk 7 [(some keyA, samplePending)] reqC "0722000111".toList
    "OTHER".toList (.num 999) (some keyA) (some "ok".toList) samplePending rfl rfl rfl
    (by decide) (by decide) (by decide) ⟨some "tok".toList, rfl⟩ rfl (by decide)

/-- Claim C4 counterexample: with a 20-character account reference the
stored record keeps the raw value while the payload submitted to the
gateway carries the 12-character truncation, so the stored accountRef is
not the truncated value that was submitted. -/
theorem stored_ref_not_truncated :
    (mapGet (initiate gOk 4 [] reqD).2.1 (some keyA)).map Transaction.accountRef =
      some longRef ∧
    (initiate gOk 4 [] reqD).2.2 =
      [.token, .push (mkStkPayload (.num 75) "254712345678".toList longRef)] ∧
    (mkStkPayload (.num 75) "254712345678".toList longRef).accountReference =
      longRef.take 12 ∧
    longRef ≠ longRef.take 12 := by
  decide

/-- Claim C4 (amended): a successful initiate stores a pending record
copying the formatted phone, the parsed amount and the raw account
reference, while the payload submitted to the gateway carries the
reference truncated to its first 12 characters. -/
theorem initiate_success_stores (g : Gateway) (now : Nat) (store : Store) (req : InitReq)
    (p r : Str) (a : JVal) (kid : Key) (msg : Option Str)
    (hp : req.phone = some p) (ha : req.amount = some a) (hr : req.accountRef = some r)
    (h1 : strTruthy req.phone = true) (h2 : jsTruthy req.amount = true)
    (h3 : strTruthy req.accountRef = true)
    (htok : ∃ tok, g.tokenOutcome = .ok tok)
    (hpush : g.pushOutcome = .ok kid msg) :
    initiate g now store req =
      (.ok kid msg,
       mapSet store kid
         { phone := formatPhone p, amount := jsParseInt a, accountRef := r,
           status := .pending, createdAt := now, customerMessage := msg },
       [.token, .push (mkStkPayload a (formatPhone p) r)]) ∧
    (mkStkPayload a (formatPhone p) r).accountReference = r.take 12 := by
  obtain ⟨tok, htok⟩ := htok
  rw [hp] at h1
  rw [ha] at h2
  rw [hr] at h3
  exact ⟨by simp [initiate, h1, h2, h3, hp, ha, hr, htok, hpush], rfl⟩

/-- Witness for initiate_success_stores on the long-reference request. -/
theorem initiate_success_stores_witness :
    initiate gOk 4 [] reqD =
      (.ok (some keyA) (some "ok".toList),
       mapSet []
         (some keyA)
         { phone := formatPhone "0712345678".toList,
           amount := jsParseInt (.num 75),
           accountRef := longRef,
           status := .pending, createdAt := 4,
           customerMessage := some "ok".toList },
       [.token, .push (mkStkPayload (.num 75) (formatPhone "0712345678".toList) longRef)]) ∧
    (mkStkPayload (.num 75) (formatPhone "0712345678".toList) longRef).accountReference =
      longRef.take 12 :=
  initiate_success_stores gOk 4 [] reqD "0712345678".toList longRef (.num 75)
    (some keyA) (some "ok".toList) rfl rfl rfl (by decide) (by decide) (by decide)
    ⟨some "tok".toList, rfl⟩ rfl

/-- Claim C9 counterexample: a 200 token response that lacks the
access_token field is not detected as a failure: initiate proceeds, both
gateway calls happen, and a transaction is created rather than the store
being left unchanged. -/
theorem initiate_missing_token_not_detected :
    (initiate gNoTokenField 3 [] reqC).1 = .ok (some keyA) (some "ok".toList) ∧
    (initiate gNoTokenField 3 [] reqC).2.1 ≠ [] ∧
    (initiate gNoTokenField 3 [] reqC).2.2 ≠ [] := by
  decide

/-- Claim C9 (amended): when the token call or the push call throws
(transport error, timeout or non-success HTTP status) the error is
surfaced as the 500 server error and no transaction is created; a
well-formed 200 response missing a field is not detected locally. -/
theorem initiate_gateway_failure (g : Gateway) (now : Nat) (store : Store) (req : InitReq)
    (p r : Str) (a : JVal)
    (hp : req.phone = some p) (ha : req.amount = some a) (hr : req.accountRef = some r)
    (h1 : strTruthy req.phone = true) (h2 : jsTruthy req.amount = true)
    (h3 : strTruthy req.accountRef = true) :
    (∀ e, g.tokenOutcome = .fail e →
      initiate g now store req = (.serverError e, store, [.token])) ∧
    (∀ tok e, g.tokenOutcome = .ok tok → g.pushOutcome = .fail e →
      initiate g now store req =
        (.serverError e, store, [.token, .push (mkStkPayload a (formatPhone p) r)])) := by
  rw [hp] at h1
  rw [ha] at h2
  rw [hr] at h3
  constructor
  · intro e he
    simp [initiate, h1, h2, h3, hp, ha, hr, he]
  · intro tok e htok hpush
    simp [initiate, h1, h2, h3, hp, ha, hr, htok, hpush]

/-- Witness for initiate_gateway_failure: the token call times out. -/
theorem initiate_gateway_failure_witness :
    initiate gTokenFail 1 [] reqC =
      (.serverError "timeout of 10000ms exceeded".toList, [], [.token]) :=
  (initiate_gateway_failure gTokenFail 1 [] reqC "0722000111".toList "OTHER".toList
    (.num 999) rfl rfl rfl (by decide) (by decide) (by decide)).1
    "timeout of 10000ms exceeded".toList rfl

end MpesaBackend
